import Mathlib

/-!
Verification of the `helloworld` greeting library (`src/lib.rs`).

Strings are modelled as Lean `String` (a wrapper around `List Char`); Rust
`&str` values are UTF-8 strings of Unicode scalar values, matching `Char`.
Rust standard-library primitives used by the code (`str::trim`,
`str::to_lowercase`, `str::len`, `char::is_whitespace`) are embedded
explicitly below, and each embedding documents its relation to the Rust
behaviour.
-/

namespace Helloworld

/-- Decidable equality for `Except` results, available componentwise. -/
instance {ε α : Type} [DecidableEq ε] [DecidableEq α] : DecidableEq (Except ε α) := fun x y =>
  match x, y with
  | .ok a, .ok b => if h : a = b then .isTrue (by rw [h]) else .isFalse (by simp [h])
  | .ok _, .error _ => .isFalse (by simp)
  | .error _, .ok _ => .isFalse (by simp)
  | .error e, .error f => if h : e = f then .isTrue (by rw [h]) else .isFalse (by simp [h])

/-- Embeds Rust `char::is_whitespace`: true exactly on the characters with
the Unicode `White_Space` property (U+0009..U+000D, U+0020, U+0085, U+00A0,
U+1680, U+2000..U+200A, U+2028, U+2029, U+202F, U+205F, U+3000). -/
def rust_is_whitespace (c : Char) : Bool :=
  [0x9, 0xA, 0xB, 0xC, 0xD, 0x20, 0x85, 0xA0, 0x1680,
   0x2000, 0x2001, 0x2002, 0x2003, 0x2004, 0x2005, 0x2006, 0x2007,
   0x2008, 0x2009, 0x200A, 0x2028, 0x2029, 0x202F, 0x205F, 0x3000].contains c.toNat

/-- Removes the longest leading run of whitespace characters
(Rust `str::trim_start`, on the character list). -/
def trim_start_list (l : List Char) : List Char :=
  l.dropWhile rust_is_whitespace

/-- Removes the longest trailing run of whitespace characters
(Rust `str::trim_end`, on the character list). -/
def trim_end_list (l : List Char) : List Char :=
  (l.reverse.dropWhile rust_is_whitespace).reverse

/-- Embeds Rust `str::trim`: removes leading and trailing whitespace. -/
def rust_trim (s : String) : String :=
  String.mk (trim_end_list (trim_start_list s.data))

/-- Number of bytes in the UTF-8 encoding of one character. -/
def char_utf8_size (c : Char) : Nat :=
  if c.toNat < 0x80 then 1
  else if c.toNat < 0x800 then 2
  else if c.toNat < 0x10000 then 3
  else 4

/-- Embeds Rust `str::len`: the length of the string in UTF-8 BYTES
(not in characters). -/
def rust_len (s : String) : Nat :=
  (s.data.map char_utf8_size).sum

/-- Lowercase mapping of one character, embedding the fragment of Rust
`char::to_lowercase` that is relevant to `Language::from_code`:
ASCII `A`..`Z` map to `a`..`z`, and U+0130 (İ) maps to the two-character
sequence `i`, U+0307. Every other character is modelled as fixed: the
remaining Unicode lowercase mappings send non-ASCII characters to non-ASCII
characters (or to `k`/`å`, which do not occur in any string that
`Language::from_code` matches against), so they cannot affect which match
arm is taken. -/
def rust_char_to_lower (c : Char) : List Char :=
  if 'A' ≤ c ∧ c ≤ 'Z' then [Char.ofNat (c.toNat + 32)]
  else if c.toNat = 0x130 then [Char.ofNat 0x69, Char.ofNat 0x307]
  else [c]

/-- Embeds Rust `str::to_lowercase` (see `rust_char_to_lower`). -/
def rust_to_lowercase (s : String) : String :=
  String.mk (s.data.flatMap rust_char_to_lower)

/-- Error types for greeting operations (`GreetingError` in `src/lib.rs`). -/
inductive GreetingError where
  /-- Empty name provided -/
  | emptyName : GreetingError
  /-- Invalid language code -/
  | invalidLanguage : String → GreetingError
  /-- Name too long (over 100 characters) -/
  | nameTooLong : Nat → GreetingError
deriving DecidableEq, Repr

/-- Supported languages for multilingual greetings (`Language` in `src/lib.rs`). -/
inductive Language where
  /-- English -/
  | english : Language
  /-- Chinese (Simplified) -/
  | chinese : Language
  /-- Spanish -/
  | spanish : Language
  /-- French -/
  | french : Language
  /-- German -/
  | german : Language
deriving DecidableEq, Repr

/-- Embeds `Language::from_code`: matches the lowercased code against the
fixed set of short codes and full names; defaults to English for unknown
codes. -/
def Language.from_code (code : String) : Language :=
  if rust_to_lowercase code = "zh" ∨ rust_to_lowercase code = "chinese" then .chinese
  else if rust_to_lowercase code = "es" ∨ rust_to_lowercase code = "spanish" then .spanish
  else if rust_to_lowercase code = "fr" ∨ rust_to_lowercase code = "french" then .french
  else if rust_to_lowercase code = "de" ∨ rust_to_lowercase code = "german" then .german
  else .english

/-- Embeds `Language::greeting_word`: the greeting word for this language. -/
def Language.greeting_word : Language → String
  | .english => "Hello"
  | .chinese => "你好"
  | .spanish => "Hola"
  | .french => "Bonjour"
  | .german => "Hallo"

/-- Embeds `greet`: `format!("Hello, {}!", name)`. -/
def greet (name : String) : String :=
  "Hello, " ++ name ++ "!"

/-- Embeds `greet_formal`: `format!("Good day, {} {}!", title, name)`. -/
def greet_formal (name title : String) : String :=
  "Good day, " ++ title ++ " " ++ name ++ "!"

/-- Embeds `greet_multilingual`: resolves the language code and formats
`format!("{}, {}!", greeting, name)`. -/
def greet_multilingual (name language_code : String) : String :=
  (Language.from_code language_code).greeting_word ++ ", " ++ name ++ "!"

/-- Embeds `get_supported_languages`. -/
def get_supported_languages : List Language :=
  [.english, .chinese, .spanish, .french, .german]

/-- Embeds `validate_name`: trims the name, then rejects an empty result
(`EmptyName`) or a result with `trimmed.len() > 100` (`NameTooLong`),
where `len()` is the UTF-8 byte length. -/
def validate_name (name : String) : Except GreetingError Unit :=
  if (rust_trim name).data = [] then .error .emptyName
  else if rust_len (rust_trim name) > 100 then .error (.nameTooLong (rust_len (rust_trim name)))
  else .ok ()

/-- Embeds `safe_greet`: `validate_name(name)?` then
`Ok(format!("Hello, {}!", name.trim()))`. -/
def safe_greet (name : String) : Except GreetingError String :=
  match validate_name name with
  | .error e => .error e
  | .ok _ => .ok ("Hello, " ++ rust_trim name ++ "!")

/-- Embeds `safe_greet_multilingual`: `validate_name(name)?`, then resolves
the language and returns `Ok(format!("{}, {}!", greeting, name.trim()))`. -/
def safe_greet_multilingual (name language_code : String) : Except GreetingError String :=
  match validate_name name with
  | .error e => .error e
  | .ok _ => .ok ((Language.from_code language_code).greeting_word ++ ", " ++ rust_trim name ++ "!")

/-! Helper lemmas about trimming. -/

/-- Dropping a prefix satisfying `p` is idempotent. -/
theorem dropWhile_idem (p : Char → Bool) (l : List Char) :
    (l.dropWhile p).dropWhile p = l.dropWhile p := by
  induction l with
  | nil => rfl
  | cons a l ih =>
    by_cases h : p a
    · simp [List.dropWhile_cons, h, ih]
    · simp [List.dropWhile_cons, h]

/-- A list fixed by `dropWhile p` passes that fixedness to each of its
prefixes. -/
theorem dropWhile_eq_self_of_prefix {p : Char → Bool} {l m : List Char}
    (hl : l.dropWhile p = l) (hm : m <+: l) : m.dropWhile p = m := by
  cases m with
  | nil => rfl
  | cons a m' =>
    obtain ⟨t, ht⟩ := hm
    cases l with
    | nil => simp at ht
    | cons b l' =>
      rw [List.cons_append] at ht
      have hab : a = b := (List.cons.injEq a (m' ++ t) b l').mp ht |>.1
      have hpb : ¬ p b = true := by
        intro hpb
        have hdrop : l'.dropWhile p = b :: l' := by
          rw [List.dropWhile_cons, if_pos hpb] at hl
          exact hl
        have hlen := (List.dropWhile_suffix (l := l') p).length_le
        rw [hdrop] at hlen
        simp at hlen
      rw [hab, List.dropWhile_cons, if_neg hpb]

/-- Trimming the end of a list yields a prefix of it. -/
theorem trim_end_shortens (l : List Char) : trim_end_list l <+: l := by
  have h := List.reverse_prefix.mpr (List.dropWhile_suffix (l := l.reverse) rust_is_whitespace)
  rw [List.reverse_reverse] at h
  exact h

/-- A fully trimmed list has no leading whitespace left to drop. -/
theorem trim_start_of_trim (l : List Char) :
    trim_start_list (trim_end_list (trim_start_list l)) = trim_end_list (trim_start_list l) := by
  unfold trim_start_list
  exact dropWhile_eq_self_of_prefix (dropWhile_idem _ _) (trim_end_shortens _)

/-- Trimming both ends is idempotent at the list level. -/
theorem trim_list_idem (l : List Char) :
    trim_end_list (trim_start_list (trim_end_list (trim_start_list l))) =
      trim_end_list (trim_start_list l) := by
  rw [trim_start_of_trim]
  unfold trim_end_list
  rw [List.reverse_reverse, dropWhile_idem]

/-- Rust `str::trim` is idempotent. -/
theorem rust_trim_idem (s : String) : rust_trim (rust_trim s) = rust_trim s := by
  show String.mk (trim_end_list (trim_start_list (trim_end_list (trim_start_list s.data)))) =
    String.mk (trim_end_list (trim_start_list s.data))
  exact congrArg String.mk (trim_list_idem s.data)

/-! Claim theorems. -/

/-- C1: the claim says `validate_name` limits the trimmed name to 100
CHARACTERS and reports the character count in `NameTooLong`. The code
compares and reports `trimmed.len()`, the UTF-8 BYTE length: the string of
34 characters `你` (3 bytes each, 102 bytes, no whitespace) is rejected
with `NameTooLong(102)` although its character count 34 is at most 100.
The byte and character counts only coincide on ASCII input, as in the
101/100 `A` cases below. -/
theorem C1_validate_name_length_is_bytes :
    validate_name (String.mk (List.replicate 34 '你')) = .error (.nameTooLong 102) ∧
    (rust_trim (String.mk (List.replicate 34 '你'))).data.length = 34 ∧
    validate_name (String.mk (List.replicate 101 'A')) = .error (.nameTooLong 101) ∧
    validate_name (String.mk (List.replicate 100 'A')) = .ok () :=
  ⟨by decide, by decide, by decide, by decide⟩

/-- C2: `greet_multilingual name code` is `"{word}, {name}!"` where `word`
is selected by the lowercased code: `zh`/`chinese` give `你好`,
`es`/`spanish` give `Hola`, `fr`/`french` give `Bonjour`, `de`/`german`
give `Hallo`, and every other code (including `en`) gives `Hello`. -/
theorem C2_greet_multilingual_language_table (name code : String) :
    greet_multilingual name code =
      (if rust_to_lowercase code = "zh" ∨ rust_to_lowercase code = "chinese" then "你好"
       else if rust_to_lowercase code = "es" ∨ rust_to_lowercase code = "spanish" then "Hola"
       else if rust_to_lowercase code = "fr" ∨ rust_to_lowercase code = "french" then "Bonjour"
       else if rust_to_lowercase code = "de" ∨ rust_to_lowercase code = "german" then "Hallo"
       else "Hello") ++ ", " ++ name ++ "!" := by
  simp only [greet_multilingual, Language.from_code]
  split_ifs <;> rfl

/-- C3: `safe_greet` returns `greet` of the trimmed name when
`validate_name` succeeds and propagates the exact validation error
otherwise; `safe_greet ""` fails and `safe_greet "  Bob  "` returns
`"Hello, Bob!"`. -/
theorem C3_safe_greet_validates_then_greets (name : String) :
    safe_greet name =
      (match validate_name name with
       | .ok _ => .ok (greet (rust_trim name))
       | .error e => .error e) ∧
    safe_greet "" = .error .emptyName ∧
    safe_greet "  Bob  " = .ok "Hello, Bob!" := by
  refine ⟨?_, by decide, by decide⟩
  unfold safe_greet
  cases validate_name name <;> rfl

/-- C4: `safe_greet_multilingual` applies the same validation gate as
`safe_greet`: on failure it returns the `validate_name` error (so
`safe_greet_multilingual "" "fr"` fails with `EmptyName`), and on success
it returns the multilingual greeting of the trimmed name. -/
theorem C4_safe_greet_multilingual_validates (name code : String) :
    safe_greet_multilingual name code =
      (match validate_name name with
       | .ok _ => .ok (greet_multilingual (rust_trim name) code)
       | .error e => .error e) ∧
    safe_greet_multilingual "" "fr" = .error .emptyName := by
  refine ⟨?_, by decide⟩
  unfold safe_greet_multilingual
  cases validate_name name <;> rfl

/-- C5: no operation ever produces `GreetingError::InvalidLanguage`:
`validate_name`, `safe_greet` and `safe_greet_multilingual` never return
it, for any input strings. -/
theorem C5_invalid_language_never_produced (name code s : String) :
    validate_name name ≠ .error (.invalidLanguage s) ∧
    safe_greet name ≠ .error (.invalidLanguage s) ∧
    safe_greet_multilingual name code ≠ .error (.invalidLanguage s) := by
  have hv : ∀ t, validate_name t ≠ .error (.invalidLanguage s) := by
    intro t
    unfold validate_name
    split
    · simp
    · split <;> simp
  refine ⟨hv name, ?_, ?_⟩
  · unfold safe_greet
    split
    · rename_i e heq
      intro hc
      injection hc with h
      rw [h] at heq
      exact hv name heq
    · simp
  · unfold safe_greet_multilingual
    split
    · rename_i e heq
      intro hc
      injection hc with h
      rw [h] at heq
      exact hv name heq
    · simp

/-- C6: `get_supported_languages` is the fixed list English, Chinese,
Spanish, French, German: exactly 5 pairwise-distinct variants in a stable
order (it is a constant, hence identical on every call). -/
theorem C6_supported_languages_fixed :
    get_supported_languages = [.english, .chinese, .spanish, .french, .german] ∧
    get_supported_languages.length = 5 ∧
    get_supported_languages.Nodup :=
  ⟨rfl, rfl, by decide⟩

/-- C7: `greet n` is exactly `"Hello, " ++ n ++ "!"` for every string,
with no validation; in particular `greet ""` is `"Hello, !"`. -/
theorem C7_greet_formats (n : String) :
    greet n = "Hello, " ++ n ++ "!" ∧ greet "" = "Hello, !" :=
  ⟨rfl, rfl⟩

/-- C8: `greet_formal n t` is exactly `"Good day, " ++ t ++ " " ++ n ++ "!"`
for every name and title, with no validation. -/
theorem C8_greet_formal_formats (n t : String) :
    greet_formal n t = "Good day, " ++ t ++ " " ++ n ++ "!" :=
  rfl

/-- C9: whenever a code resolves to English — including `en`/`english` in
any letter case and every unrecognized code — `greet_multilingual`
coincides with the plain `greet` fast path. -/
theorem C9_english_equals_plain_greet (name code : String) :
    (Language.from_code code = .english → greet_multilingual name code = greet name) ∧
    Language.from_code "en" = .english ∧
    Language.from_code "EN" = .english ∧
    Language.from_code "english" = .english ∧
    Language.from_code "English" = .english ∧
    Language.from_code "unknownlang" = .english := by
  refine ⟨fun h => ?_, by decide, by decide, by decide, by decide, by decide⟩
  unfold greet_multilingual
  rw [h]
  rfl

/-- Witness for C9 at the concrete code `xx`, an unrecognized code. -/
theorem C9_english_equals_plain_greet_witness :
    Language.from_code "xx" = Language.english ∧
    greet_multilingual "World" "xx" = greet "World" :=
  ⟨by decide, (C9_english_equals_plain_greet "World" "xx").1 (by decide)⟩

/-- C10: `safe_greet` and `validate_name` are invariant under trimming
their input: trimming is idempotent, so validating or greeting the trimmed
name gives the same result (value or error) as the original. -/
theorem C10_safe_greet_trim_invariant (n : String) :
    validate_name (rust_trim n) = validate_name n ∧
    safe_greet (rust_trim n) = safe_greet n := by
  have h : rust_trim (rust_trim n) = rust_trim n := rust_trim_idem n
  have hv : validate_name (rust_trim n) = validate_name n := by
    unfold validate_name
    rw [h]
  refine ⟨hv, ?_⟩
  unfold safe_greet
  rw [hv, h]

end Helloworld
